import Mathlib

/-!
Verification of the ledger mutation core of a retail-banking back office.

The embedding models the persisted state (accounts, transactions, loans) as
plain Lean data and each ledger operation (`create_transaction`,
`transfer_money`, `approve_loan`, and the helpers they call) as a pure
function from state to result-plus-state, translated statement by statement
from `functions/db_helpers.py`, `functions/customer_extended.py` and
`functions/employee_loans_cards.py`.  Balances and amounts are rationals,
which model Python `Decimal` arithmetic exactly for the additions and
subtractions these operations perform.  A Python function that returns
normally yields `PyResult.ok`; a `raise` yields `PyResult.exn` and, because
`db.get_cursor` rolls back on any exception, the state component on that
path is the pre-call state.
-/

namespace Ledger

/-- Result of a Python call: a normal return value, or a raised exception
(carrying the exception message).  `exn` aborts the enclosing database
transaction, so the operation's state component is left unchanged there. -/
inductive PyResult (α : Type) where
  | ok : α → PyResult α
  | exn : String → PyResult α
deriving DecidableEq, Repr

/-- One row of the `transactions` table, with the columns the ledger core
reads and writes (`tx_id`/`created_at` are represented by list position:
the list is kept in insertion order, oldest first). -/
structure Txn where
  account_id : Nat
  tx_type : String
  amount : ℚ
  balance_after : ℚ
  related_account : Option Nat
  description : String
deriving DecidableEq, Repr

/-- One row of the `loans` table, restricted to the columns `approve_loan`
touches. -/
structure Loan where
  loan_id : Nat
  linked_account_id : Nat
  loan_number : String
  principal_amount : ℚ
  status : String
  employee_id : Option Nat
  disbursement_date : Option Nat
deriving DecidableEq, Repr

/-- The persisted ledger state: the `accounts` table as `(account_id,
balance)` pairs, the append-only `transactions` table in insertion order,
and the `loans` table. -/
structure DBState where
  accounts : List (Nat × ℚ)
  transactions : List Txn
  loans : List Loan
deriving DecidableEq, Repr

/-- `SELECT balance FROM accounts WHERE account_id = %s` -/
def getBal (accs : List (Nat × ℚ)) (account_id : Nat) : Option ℚ :=
  (accs.find? (fun p => p.1 == account_id)).map (fun p => p.2)

/-- `UPDATE accounts SET balance = %s WHERE account_id = %s` -/
def setBal (accs : List (Nat × ℚ)) (account_id : Nat) (b : ℚ) : List (Nat × ℚ) :=
  accs.map (fun p => if p.1 == account_id then (p.1, b) else p)

/-- `db_helpers.get_account_balance`: balance of an account, or `none` if
the row is missing. -/
def get_account_balance (s : DBState) (account_id : Nat) : Option ℚ :=
  getBal s.accounts account_id

/-- `db_helpers.check_sufficient_balance`: `False` when the balance lookup
yields `None`, else `balance >= required`. -/
def check_sufficient_balance (s : DBState) (account_id : Nat) (amount : ℚ) : Bool :=
  match get_account_balance s account_id with
  | none => false
  | some balance => decide (amount ≤ balance)

/-- Python `str.upper()` restricted to the ASCII strings the ledger uses. -/
def pyUpper (str : String) : String :=
  String.mk (str.data.map Char.toUpper)

/-- The sign table of `db_helpers.create_transaction`:
`sign = -1 if tx_type.upper() in {"WITHDRAWAL", "DEBIT", "TRANSFER_OUT"} else 1`. -/
def signOf (tx_type : String) : Int :=
  if pyUpper tx_type = "WITHDRAWAL" ∨ pyUpper tx_type = "DEBIT" ∨
      pyUpper tx_type = "TRANSFER_OUT" then -1 else 1

/-- `db_helpers.create_transaction`: lock the account row, compute the
signed new balance, write it back and append one transaction row; raises
(`PyResult.exn`) when the account row is missing, in which case the
transaction rolls back and the state is unchanged. -/
def create_transaction (s : DBState) (account_id : Nat) (tx_type : String)
    (amount : ℚ) (related_account : Option Nat) (description : String) :
    PyResult Unit × DBState :=
  match getBal s.accounts account_id with
  | none => (.exn ("Account " ++ toString account_id ++ " not found"), s)
  | some current_balance =>
    let new_balance := current_balance + (signOf tx_type : ℚ) * amount
    (.ok (),
      { s with
        accounts := setBal s.accounts account_id new_balance,
        transactions := s.transactions ++
          [⟨account_id, tx_type, amount, new_balance, related_account, description⟩] })

/-- `customer_extended.transfer_money`: validations, then one atomic unit
that re-reads both balances under lock, re-checks sufficiency, updates both
balances and inserts the DEBIT and CREDIT rows.  The missing-account check
inside the atomic unit raises `ValueError` (modelled by `PyResult.exn`),
which rolls the unit back. -/
def transfer_money (s : DBState) (from_account to_account : Nat) (amount : ℚ)
    (description : String) : PyResult (Bool × String) × DBState :=
  if from_account = to_account then
    (.ok (false, "Source and destination accounts must be different."), s)
  else if amount ≤ 0 then
    (.ok (false, "Amount must be positive."), s)
  else if check_sufficient_balance s from_account amount = false then
    (.ok (false, "Insufficient balance."), s)
  else
    match getBal s.accounts from_account, getBal s.accounts to_account with
    | some from_balance, some to_balance =>
      if from_balance < amount then
        (.ok (false, "Insufficient balance."), s)
      else
        let new_from_balance := from_balance - amount
        let new_to_balance := to_balance + amount
        (.ok (true, "Transfer completed successfully."),
          { s with
            accounts := setBal (setBal s.accounts from_account new_from_balance)
              to_account new_to_balance,
            transactions := s.transactions ++
              [⟨from_account, "DEBIT", amount, new_from_balance, some to_account, description⟩,
               ⟨to_account, "CREDIT", amount, new_to_balance, some from_account, description⟩] })
    | _, _ => (.exn "One or both accounts not found.", s)

/-- `SELECT * FROM loans WHERE loan_id = %s FOR UPDATE` -/
def findLoan (s : DBState) (loan_id : Nat) : Option Loan :=
  s.loans.find? (fun l => l.loan_id == loan_id)

/-- `employee_loans_cards.approve_loan`: silently no-ops when the loan or
its linked account is missing; otherwise credits the principal, appends one
CREDIT transaction row and marks the loan ACTIVE with the employee and
disbursement date, all in one atomic unit.  `today` stands for the store's
`CURRENT_DATE`. -/
def approve_loan (s : DBState) (loan_id employee_id : Nat) (today : Nat) : DBState :=
  match findLoan s loan_id with
  | none => s
  | some loan =>
    match getBal s.accounts loan.linked_account_id with
    | none => s
    | some current_balance =>
      let principal := loan.principal_amount
      let new_balance := current_balance + principal
      { s with
        accounts := setBal s.accounts loan.linked_account_id new_balance,
        transactions := s.transactions ++
          [⟨loan.linked_account_id, "CREDIT", principal, new_balance, none,
            "Loan disbursement #" ++ loan.loan_number⟩],
        loans := s.loans.map (fun l =>
          if l.loan_id == loan_id then
            { l with status := "ACTIVE", employee_id := some employee_id,
                     disbursement_date := some today }
          else l) }

/-- Signed amount of a transaction row, under the sign table of the
Balance Mutator. -/
def txnSigned (t : Txn) : ℚ := (signOf t.tx_type : ℚ) * t.amount

/-- The transactions of one account, in creation order. -/
def txnsFor (txs : List Txn) (account_id : Nat) : List Txn :=
  txs.filter (fun t => t.account_id == account_id)

/-- Replaying an account's history: the sum of its signed transaction
amounts in creation order, starting from zero. -/
def replayed (txs : List Txn) (account_id : Nat) : ℚ :=
  ((txnsFor txs account_id).map txnSigned).sum

/-- The most recent transaction of an account, if any. -/
def lastTxnFor (txs : List Txn) (account_id : Nat) : Option Txn :=
  (txnsFor txs account_id).getLast?

/-- `balance_after` of the given (optional, most recent) transaction
matches the given balance. -/
def balAfterOk : Option Txn → ℚ → Prop
  | none, _ => True
  | some t, b => t.balance_after = b

instance (o : Option Txn) (b : ℚ) : Decidable (balAfterOk o b) :=
  match o with
  | none => isTrue trivial
  | some t => inferInstanceAs (Decidable (t.balance_after = b))

/-- The ledger reconciliation property over raw tables: every account's
replayed history equals its stored balance, and the most recent
transaction's `balance_after` equals the stored balance. -/
def InvHolds (accs : List (Nat × ℚ)) (txs : List Txn) : Prop :=
  ∀ p ∈ accs, replayed txs p.1 = p.2 ∧ balAfterOk (lastTxnFor txs p.1) p.2

instance (accs : List (Nat × ℚ)) (txs : List Txn) : Decidable (InvHolds accs txs) :=
  inferInstanceAs (Decidable (∀ p ∈ accs,
    replayed txs p.1 = p.2 ∧ balAfterOk (lastTxnFor txs p.1) p.2))

/-- The ledger reconciliation invariant of a database state. -/
def LedgerInvariant (s : DBState) : Prop :=
  InvHolds s.accounts s.transactions

instance (s : DBState) : Decidable (LedgerInvariant s) :=
  inferInstanceAs (Decidable (InvHolds s.accounts s.transactions))

/-- A concrete ledger state used to instantiate theorems: two accounts with
balances 100 and 50, each justified by one initial CREDIT transaction. -/
def sW : DBState :=
  { accounts := [(1, 100), (2, 50)],
    transactions := [⟨1, "CREDIT", 100, 100, none, "initial deposit"⟩,
                     ⟨2, "CREDIT", 50, 50, none, "initial deposit"⟩],
    loans := [] }

/-- A concrete PENDING loan of principal 100 linked to account 1. -/
def lPending : Loan :=
  { loan_id := 1, linked_account_id := 1, loan_number := "LN0000000001",
    principal_amount := 100, status := "PENDING",
    employee_id := none, disbursement_date := none }

/-- A concrete state for the loan theorems: account 1 with balance 0 and
one PENDING loan. -/
def sL : DBState :=
  { accounts := [(1, 0)], transactions := [], loans := [lPending] }

theorem find?_map_pres {α : Type} (f : α → α) (p : α → Bool)
    (hf : ∀ x, p (f x) = p x) : ∀ l : List α, (l.map f).find? p = (l.find? p).map f := by
  intro l
  induction l with
  | nil => rfl
  | cons a t ih =>
    simp only [List.map_cons, List.find?]
    rw [hf a]
    cases p a
    · simpa using ih
    · rfl

theorem setBal_key_pres (account_id : Nat) (b : ℚ) (other : Nat) :
    ∀ x : Nat × ℚ,
      ((if x.1 == account_id then (x.1, b) else x).1 == other) = (x.1 == other) := by
  intro x
  by_cases h : x.1 == account_id <;> simp [h]

theorem getBal_setBal_ne (accs : List (Nat × ℚ)) (a b : Nat) (v : ℚ) (hab : a ≠ b) :
    getBal (setBal accs a v) b = getBal accs b := by
  unfold getBal setBal
  rw [find?_map_pres _ _ (setBal_key_pres a v b)]
  cases hf : accs.find? (fun p => p.1 == b) with
  | none => rfl
  | some q =>
    have hq := List.find?_some hf
    simp only [beq_iff_eq] at hq
    simp [hq, Ne.symm hab]

theorem getBal_setBal_eq (accs : List (Nat × ℚ)) (a : Nat) (v B : ℚ)
    (h : getBal accs a = some B) : getBal (setBal accs a v) a = some v := by
  unfold getBal setBal
  rw [find?_map_pres _ _ (setBal_key_pres a v a)]
  unfold getBal at h
  cases hf : accs.find? (fun p => p.1 == a) with
  | none => rw [hf] at h; simp at h
  | some q =>
    have hq := List.find?_some hf
    have hq' : q.1 = a := by simpa using hq
    simp [hq']

theorem getBal_mem (accs : List (Nat × ℚ)) (account_id : Nat) (B : ℚ)
    (h : getBal accs account_id = some B) :
    ∃ q ∈ accs, q.1 = account_id ∧ q.2 = B := by
  unfold getBal at h
  cases hf : accs.find? (fun p => p.1 == account_id) with
  | none => rw [hf] at h; simp at h
  | some q =>
    rw [hf] at h
    simp only [Option.map_some', Option.some.injEq] at h
    have h1 := List.find?_some hf
    simp only [beq_iff_eq] at h1
    exact ⟨q, List.mem_of_find?_eq_some hf, h1, h⟩

theorem txnsFor_append (xs ys : List Txn) (account_id : Nat) :
    txnsFor (xs ++ ys) account_id = txnsFor xs account_id ++ txnsFor ys account_id := by
  simp [txnsFor, List.filter_append]

theorem replayed_append_one (txs : List Txn) (t : Txn) (account_id : Nat) :
    replayed (txs ++ [t]) account_id =
      replayed txs account_id + (if t.account_id = account_id then txnSigned t else 0) := by
  unfold replayed
  rw [txnsFor_append]
  by_cases h : t.account_id = account_id
  · simp [txnsFor, h]
  · simp [txnsFor, h]

theorem lastTxnFor_append_eq (txs : List Txn) (t : Txn) (account_id : Nat)
    (h : t.account_id = account_id) : lastTxnFor (txs ++ [t]) account_id = some t := by
  unfold lastTxnFor
  rw [txnsFor_append]
  have h1 : txnsFor [t] account_id = [t] := by simp [txnsFor, h]
  rw [h1]
  simp

theorem lastTxnFor_append_ne (txs : List Txn) (t : Txn) (account_id : Nat)
    (h : ¬ t.account_id = account_id) :
    lastTxnFor (txs ++ [t]) account_id = lastTxnFor txs account_id := by
  unfold lastTxnFor
  rw [txnsFor_append]
  have h1 : txnsFor [t] account_id = [] := by simp [txnsFor, h]
  rw [h1]
  simp

theorem invHolds_post (accs : List (Nat × ℚ)) (txs : List Txn) (t : Txn) (B : ℚ)
    (hinv : InvHolds accs txs) (hB : getBal accs t.account_id = some B)
    (hafter : t.balance_after = B + txnSigned t) :
    InvHolds (setBal accs t.account_id t.balance_after) (txs ++ [t]) := by
  obtain ⟨q, hqmem, hqkey, hqval⟩ := getBal_mem accs t.account_id B hB
  have hBrep : replayed txs t.account_id = B := by
    have h1 := (hinv q hqmem).1
    rw [hqkey, hqval] at h1
    exact h1
  intro p hp
  obtain ⟨p₀, hp₀, rfl⟩ := List.mem_map.mp hp
  by_cases hk : p₀.1 = t.account_id
  · have hrw : (if (p₀.1 == t.account_id) = true then (p₀.1, t.balance_after) else p₀)
        = (p₀.1, t.balance_after) := by simp [hk]
    rw [hrw]
    refine ⟨?_, ?_⟩
    · show replayed (txs ++ [t]) p₀.1 = t.balance_after
      rw [replayed_append_one, if_pos hk.symm, hk, hBrep, hafter]
    · show balAfterOk (lastTxnFor (txs ++ [t]) p₀.1) t.balance_after
      rw [lastTxnFor_append_eq txs t p₀.1 hk.symm]
      exact rfl
  · have hrw : (if (p₀.1 == t.account_id) = true then (p₀.1, t.balance_after) else p₀)
        = p₀ := by simp [hk]
    rw [hrw]
    have hne : ¬ t.account_id = p₀.1 := fun h => hk h.symm
    refine ⟨?_, ?_⟩
    · rw [replayed_append_one, if_neg hne, add_zero]
      exact (hinv p₀ hp₀).1
    · rw [lastTxnFor_append_ne txs t p₀.1 hne]
      exact (hinv p₀ hp₀).2

theorem create_transaction_preserves_inv (s : DBState) (account_id : Nat)
    (tx_type : String) (amount : ℚ) (rel : Option Nat) (d : String)
    (h : LedgerInvariant s) :
    LedgerInvariant (create_transaction s account_id tx_type amount rel d).2 := by
  unfold create_transaction
  cases hB : getBal s.accounts account_id with
  | none => exact h
  | some B =>
    exact invHolds_post s.accounts s.transactions
      ⟨account_id, tx_type, amount, B + (signOf tx_type : ℚ) * amount, rel, d⟩ B h hB rfl

theorem transfer_money_preserves_inv (s : DBState) (fa ta : Nat) (amount : ℚ)
    (d : String) (h : LedgerInvariant s) :
    LedgerInvariant (transfer_money s fa ta amount d).2 := by
  unfold transfer_money
  by_cases h1 : fa = ta
  · simp only [if_pos h1]; exact h
  · simp only [if_neg h1]
    by_cases h2 : amount ≤ 0
    · simp only [if_pos h2]; exact h
    · simp only [if_neg h2]
      by_cases h3 : check_sufficient_balance s fa amount = false
      · simp only [if_pos h3]; exact h
      · simp only [if_neg h3]
        cases hF : getBal s.accounts fa with
        | none => exact h
        | some fb =>
          cases hT : getBal s.accounts ta with
          | none => exact h
          | some tb =>
            by_cases h4 : fb < amount
            · simp only [if_pos h4]; exact h
            · simp only [if_neg h4]
              have hd : signOf "DEBIT" = -1 := by decide
              have hc : signOf "CREDIT" = 1 := by decide
              have p1 := invHolds_post s.accounts s.transactions
                ⟨fa, "DEBIT", amount, fb - amount, some ta, d⟩ fb h hF (by
                  show fb - amount = fb + (signOf "DEBIT" : ℚ) * amount
                  rw [hd]; push_cast; ring)
              have hT' : getBal (setBal s.accounts fa (fb - amount)) ta = some tb := by
                rw [getBal_setBal_ne s.accounts fa ta (fb - amount) h1]; exact hT
              have p2 := invHolds_post (setBal s.accounts fa (fb - amount))
                (s.transactions ++ [⟨fa, "DEBIT", amount, fb - amount, some ta, d⟩])
                ⟨ta, "CREDIT", amount, tb + amount, some fa, d⟩ tb p1 hT' (by
                  show tb + amount = tb + (signOf "CREDIT" : ℚ) * amount
                  rw [hc]; push_cast; ring)
              rw [List.append_assoc] at p2
              exact p2

theorem approve_loan_preserves_inv (s : DBState) (lid eid today : Nat)
    (h : LedgerInvariant s) : LedgerInvariant (approve_loan s lid eid today) := by
  unfold approve_loan
  split
  · exact h
  · next loan hL =>
    split
    · exact h
    · next B hB =>
      exact invHolds_post s.accounts s.transactions
        ⟨loan.linked_account_id, "CREDIT", loan.principal_amount, B + loan.principal_amount,
          none, "Loan disbursement #" ++ loan.loan_number⟩ B h hB (by
            show B + loan.principal_amount = B + (signOf "CREDIT" : ℚ) * loan.principal_amount
            have hc : signOf "CREDIT" = 1 := by decide
            rw [hc]; push_cast; ring)

theorem create_transaction_spec (s : DBState) (account_id : Nat) (tx_type : String)
    (amount : ℚ) (rel : Option Nat) (d : String) (B : ℚ)
    (h : get_account_balance s account_id = some B) :
    (create_transaction s account_id tx_type amount rel d).1 = .ok () ∧
    get_account_balance (create_transaction s account_id tx_type amount rel d).2 account_id =
      some (B + (signOf tx_type : ℚ) * amount) ∧
    (create_transaction s account_id tx_type amount rel d).2.transactions =
      s.transactions ++ [⟨account_id, tx_type, amount,
        B + (signOf tx_type : ℚ) * amount, rel, d⟩] := by
  have hg : getBal s.accounts account_id = some B := h
  have hred : create_transaction s account_id tx_type amount rel d =
      (.ok (), { s with
        accounts := setBal s.accounts account_id (B + (signOf tx_type : ℚ) * amount),
        transactions := s.transactions ++ [⟨account_id, tx_type, amount,
          B + (signOf tx_type : ℚ) * amount, rel, d⟩] }) := by
    unfold create_transaction
    rw [hg]
  refine ⟨by rw [hred], ?_, by rw [hred]⟩
  rw [hred]
  show getBal (setBal s.accounts account_id (B + (signOf tx_type : ℚ) * amount)) account_id = _
  rw [getBal_setBal_eq s.accounts account_id _ B hg]

theorem cast_signOf (tx_type : String) :
    (signOf tx_type : ℚ) =
      if pyUpper tx_type = "WITHDRAWAL" ∨ pyUpper tx_type = "DEBIT" ∨
        pyUpper tx_type = "TRANSFER_OUT" then (-1 : ℚ) else 1 := by
  unfold signOf
  split_ifs <;> simp

/-- C5: for every `create_transaction` on an existing account with balance B, the
amount is subtracted exactly when the case-normalized type is WITHDRAWAL, DEBIT or
TRANSFER_OUT and added for every other type; the stored balance becomes B plus the
signed amount, and exactly one transaction row is appended carrying
`balance_after` equal to that new balance. -/
theorem create_transaction_sign_rule (s : DBState) (account_id : Nat) (tx_type : String)
    (amount : ℚ) (rel : Option Nat) (d : String) (B : ℚ)
    (h : get_account_balance s account_id = some B) :
    (create_transaction s account_id tx_type amount rel d).1 = .ok () ∧
    get_account_balance (create_transaction s account_id tx_type amount rel d).2 account_id =
      some (B + (if pyUpper tx_type = "WITHDRAWAL" ∨ pyUpper tx_type = "DEBIT" ∨
        pyUpper tx_type = "TRANSFER_OUT" then (-1 : ℚ) else 1) * amount) ∧
    (create_transaction s account_id tx_type amount rel d).2.transactions =
      s.transactions ++ [⟨account_id, tx_type, amount,
        B + (if pyUpper tx_type = "WITHDRAWAL" ∨ pyUpper tx_type = "DEBIT" ∨
          pyUpper tx_type = "TRANSFER_OUT" then (-1 : ℚ) else 1) * amount, rel, d⟩] := by
  rw [← cast_signOf]
  exact create_transaction_spec s account_id tx_type amount rel d B h

/-- C5 witness: a WITHDRAWAL of 20 on account 1 of the concrete state (balance
100) leaves balance 80 and appends the matching row. -/
theorem create_transaction_sign_rule_witness :
    get_account_balance sW 1 = some 100 ∧
    ((create_transaction sW 1 "WITHDRAWAL" 20 none "w").1 = .ok () ∧
      get_account_balance (create_transaction sW 1 "WITHDRAWAL" 20 none "w").2 1 =
        some (100 + (if pyUpper "WITHDRAWAL" = "WITHDRAWAL" ∨ pyUpper "WITHDRAWAL" = "DEBIT" ∨
          pyUpper "WITHDRAWAL" = "TRANSFER_OUT" then (-1 : ℚ) else 1) * 20) ∧
      (create_transaction sW 1 "WITHDRAWAL" 20 none "w").2.transactions =
        sW.transactions ++ [⟨1, "WITHDRAWAL", 20,
          100 + (if pyUpper "WITHDRAWAL" = "WITHDRAWAL" ∨ pyUpper "WITHDRAWAL" = "DEBIT" ∨
            pyUpper "WITHDRAWAL" = "TRANSFER_OUT" then (-1 : ℚ) else 1) * 20, none, "w"⟩]) :=
  ⟨by with_unfolding_all decide,
    create_transaction_sign_rule sW 1 "WITHDRAWAL" 20 none "w" 100
      (by with_unfolding_all decide)⟩

/-- C6 counterexample: `create_transaction` with the non-positive amount −50 on
account 1 (balance 100) does not fail: it returns normally, drops the balance to
50 and appends a transaction row, contradicting the claimed `InvalidAmount`
rejection with no state change. -/
theorem create_transaction_nonpositive_cex :
    (create_transaction sW 1 "CREDIT" (-50) none "deposit").1 = .ok () ∧
    get_account_balance (create_transaction sW 1 "CREDIT" (-50) none "deposit").2 1 =
      some 50 ∧
    (create_transaction sW 1 "CREDIT" (-50) none "deposit").2.transactions.length =
      sW.transactions.length + 1 := by
  with_unfolding_all decide

/-- C6 amended: `create_transaction` performs no amount validation: a call with a
non-positive amount on an existing account still returns normally, applies the
signed amount to the balance and appends one transaction row (its only failure is
a missing account). -/
theorem create_transaction_no_amount_validation (s : DBState) (account_id : Nat)
    (tx_type : String) (amount : ℚ) (rel : Option Nat) (d : String) (B : ℚ)
    (_hA : amount ≤ 0) (h : get_account_balance s account_id = some B) :
    (create_transaction s account_id tx_type amount rel d).1 = .ok () ∧
    get_account_balance (create_transaction s account_id tx_type amount rel d).2 account_id =
      some (B + (signOf tx_type : ℚ) * amount) ∧
    (create_transaction s account_id tx_type amount rel d).2.transactions =
      s.transactions ++ [⟨account_id, tx_type, amount,
        B + (signOf tx_type : ℚ) * amount, rel, d⟩] :=
  create_transaction_spec s account_id tx_type amount rel d B h

/-- C6 amended witness: the −50 CREDIT on the concrete state, through the amended
theorem. -/
theorem create_transaction_no_amount_validation_witness :
    ((-50 : ℚ) ≤ 0 ∧ get_account_balance sW 1 = some 100) ∧
    ((create_transaction sW 1 "CREDIT" (-50) none "deposit").1 = .ok () ∧
      get_account_balance (create_transaction sW 1 "CREDIT" (-50) none "deposit").2 1 =
        some (100 + (signOf "CREDIT" : ℚ) * (-50)) ∧
      (create_transaction sW 1 "CREDIT" (-50) none "deposit").2.transactions =
        sW.transactions ++ [⟨1, "CREDIT", -50, 100 + (signOf "CREDIT" : ℚ) * (-50),
          none, "deposit"⟩]) :=
  ⟨⟨by with_unfolding_all decide, by with_unfolding_all decide⟩,
    create_transaction_no_amount_validation sW 1 "CREDIT" (-50) none "deposit" 100
      (by with_unfolding_all decide) (by with_unfolding_all decide)⟩

/-- C10: when the source account does not exist (and the arguments pass the
same-account and positivity checks), `transfer_money` returns
`(False, "Insufficient balance.")` — the missing source is reported as an
insufficient-funds failure, because `check_sufficient_balance` returns `False`
when the balance lookup yields `None`. -/
theorem transfer_money_missing_source_insufficient (s : DBState) (X Y : Nat)
    (A : ℚ) (d : String) (hxy : X ≠ Y) (hA : 0 < A)
    (hX : get_account_balance s X = none) :
    transfer_money s X Y A d = (.ok (false, "Insufficient balance."), s) := by
  have hchk : check_sufficient_balance s X A = false := by
    unfold check_sufficient_balance
    rw [hX]
  unfold transfer_money
  rw [if_neg hxy, if_neg (not_le.mpr hA), if_pos hchk]

/-- C10 witness: account 9 is missing from the concrete state; a transfer out of
it reports insufficient balance. -/
theorem transfer_money_missing_source_insufficient_witness :
    (9 ≠ 2 ∧ (0 : ℚ) < 5 ∧ get_account_balance sW 9 = none) ∧
    transfer_money sW 9 2 5 "Transfer" = (.ok (false, "Insufficient balance."), sW) :=
  ⟨⟨by decide, by decide, by with_unfolding_all decide⟩,
    transfer_money_missing_source_insufficient sW 9 2 5 "Transfer" (by decide) (by decide)
      (by with_unfolding_all decide)⟩

theorem findLoan_map_update (loans : List Loan) (lid eid today : Nat) (loan : Loan)
    (h : loans.find? (fun l => l.loan_id == lid) = some loan) :
    (loans.map (fun l =>
      if l.loan_id == lid then
        { l with status := "ACTIVE", employee_id := some eid,
                 disbursement_date := some today }
      else l)).find? (fun l => l.loan_id == lid) =
    some { loan with
           status := "ACTIVE", employee_id := some eid,
           disbursement_date := some today } := by
  rw [find?_map_pres]
  · rw [h]
    have h1 := List.find?_some h
    have h1' : loan.loan_id = lid := by simpa using h1
    simp [h1']
  · intro x
    by_cases hx : x.loan_id == lid <;> simp [hx]

/-- C4 counterexample: on the concrete state (account 1 with balance 0, loan 1
PENDING with principal 100), the first `approve_loan` call moves the loan to
ACTIVE, yet a second call on the same loan disburses the principal again: the
balance ends at 200 and two CREDIT transaction rows exist, contradicting "a
second approve_loan call on the same loan does not disburse funds again". -/
theorem approve_loan_double_disbursement_cex :
    (findLoan (approve_loan sL 1 9 0) 1).map Loan.status = some "ACTIVE" ∧
    get_account_balance (approve_loan (approve_loan sL 1 9 0) 1 9 0) 1 = some 200 ∧
    (approve_loan (approve_loan sL 1 9 0) 1 9 0).transactions.length = 2 := by
  with_unfolding_all decide

/-- C4 amended: approving a loan whose row and linked account exist — the code
never checks the PENDING status — credits the principal onto the linked account,
appends exactly one CREDIT transaction (balance_after = B+P, no related account,
description referencing the loan number) and sets status ACTIVE with the
employee and disbursement date recorded, all in one atomic unit; because the
status is never checked, a second call on the same loan disburses the principal
again. -/
theorem approve_loan_disbursement_contract (s : DBState) (lid eid today : Nat)
    (loan : Loan) (B : ℚ) (hL : findLoan s lid = some loan)
    (hB : get_account_balance s loan.linked_account_id = some B) :
    get_account_balance (approve_loan s lid eid today) loan.linked_account_id =
      some (B + loan.principal_amount) ∧
    (approve_loan s lid eid today).transactions = s.transactions ++
      [⟨loan.linked_account_id, "CREDIT", loan.principal_amount,
        B + loan.principal_amount, none, "Loan disbursement #" ++ loan.loan_number⟩] ∧
    findLoan (approve_loan s lid eid today) lid =
      some { loan with
             status := "ACTIVE", employee_id := some eid,
             disbursement_date := some today } := by
  have hg : getBal s.accounts loan.linked_account_id = some B := hB
  have hred : approve_loan s lid eid today =
      { s with
        accounts := setBal s.accounts loan.linked_account_id (B + loan.principal_amount),
        transactions := s.transactions ++
          [⟨loan.linked_account_id, "CREDIT", loan.principal_amount,
            B + loan.principal_amount, none, "Loan disbursement #" ++ loan.loan_number⟩],
        loans := s.loans.map (fun l =>
          if l.loan_id == lid then
            { l with status := "ACTIVE", employee_id := some eid,
                     disbursement_date := some today }
          else l) } := by
    unfold approve_loan
    split
    · next hnone => rw [hL] at hnone; cases hnone
    · next loan' hsome =>
      rw [hL] at hsome
      injection hsome with he
      subst he
      split
      · next hnone => rw [hg] at hnone; cases hnone
      · next B' hsome2 =>
        rw [hg] at hsome2
        injection hsome2 with he2
        subst he2
        rfl
  refine ⟨?_, by rw [hred], ?_⟩
  · rw [hred]
    show getBal (setBal s.accounts loan.linked_account_id (B + loan.principal_amount))
      loan.linked_account_id = _
    rw [getBal_setBal_eq s.accounts loan.linked_account_id _ B hg]
  · rw [hred]
    exact findLoan_map_update s.loans lid eid today loan hL

/-- C4 amended witness: the concrete PENDING loan, through the amended theorem. -/
theorem approve_loan_disbursement_contract_witness :
    (findLoan sL 1 = some lPending ∧
      get_account_balance sL lPending.linked_account_id = some 0) ∧
    (get_account_balance (approve_loan sL 1 9 0) lPending.linked_account_id =
      some (0 + lPending.principal_amount) ∧
    (approve_loan sL 1 9 0).transactions = sL.transactions ++
      [⟨lPending.linked_account_id, "CREDIT", lPending.principal_amount,
        0 + lPending.principal_amount, none,
        "Loan disbursement #" ++ lPending.loan_number⟩] ∧
    findLoan (approve_loan sL 1 9 0) 1 =
      some { lPending with
             status := "ACTIVE", employee_id := some 9,
             disbursement_date := some 0 }) :=
  ⟨⟨by with_unfolding_all decide, by with_unfolding_all decide⟩,
    approve_loan_disbursement_contract sL 1 9 0 lPending 0
      (by with_unfolding_all decide) (by with_unfolding_all decide)⟩

/-- C1: Conservation: a successful transfer of amount A between distinct existing
accounts X and Y with sufficient source balance succeeds, leaves the source at
its old balance minus A and the destination at its old balance plus A, and the
sum of the two balances is unchanged. -/
theorem transfer_money_conservation (s : DBState) (X Y : Nat) (A : ℚ) (d : String)
    (BX BY : ℚ) (hxy : X ≠ Y) (hA : 0 < A)
    (hX : get_account_balance s X = some BX) (hY : get_account_balance s Y = some BY)
    (hBA : A ≤ BX) :
    (transfer_money s X Y A d).1 = .ok (true, "Transfer completed successfully.") ∧
    get_account_balance (transfer_money s X Y A d).2 X = some (BX - A) ∧
    get_account_balance (transfer_money s X Y A d).2 Y = some (BY + A) ∧
    (BX - A) + (BY + A) = BX + BY := by
  have hgX : getBal s.accounts X = some BX := hX
  have hgY : getBal s.accounts Y = some BY := hY
  have hchk : ¬ check_sufficient_balance s X A = false := by
    unfold check_sufficient_balance
    rw [hX]
    simp [hBA]
  have hred : transfer_money s X Y A d =
      (.ok (true, "Transfer completed successfully."),
        { s with
          accounts := setBal (setBal s.accounts X (BX - A)) Y (BY + A),
          transactions := s.transactions ++
            [⟨X, "DEBIT", A, BX - A, some Y, d⟩,
             ⟨Y, "CREDIT", A, BY + A, some X, d⟩] }) := by
    unfold transfer_money
    rw [if_neg hxy, if_neg (not_le.mpr hA), if_neg hchk]
    split
    · next fb tb hf ht =>
      rw [hgX] at hf
      injection hf with he
      subst he
      rw [hgY] at ht
      injection ht with he2
      subst he2
      rw [if_neg (not_lt.mpr hBA)]
    · next hcatch =>
      exact (hcatch BX BY hgX hgY).elim
  refine ⟨by rw [hred], ?_, ?_, by ring⟩
  · rw [hred]
    show getBal (setBal (setBal s.accounts X (BX - A)) Y (BY + A)) X = _
    rw [getBal_setBal_ne (setBal s.accounts X (BX - A)) Y X (BY + A) (Ne.symm hxy),
      getBal_setBal_eq s.accounts X (BX - A) BX hgX]
  · rw [hred]
    show getBal (setBal (setBal s.accounts X (BX - A)) Y (BY + A)) Y = _
    have hY' : getBal (setBal s.accounts X (BX - A)) Y = some BY := by
      rw [getBal_setBal_ne s.accounts X Y (BX - A) hxy]
      exact hgY
    rw [getBal_setBal_eq (setBal s.accounts X (BX - A)) Y (BY + A) BY hY']

/-- C1 witness: the 30-unit transfer from account 1 (balance 100) to account 2
(balance 50) of the concrete state. -/
theorem transfer_money_conservation_witness :
    ((1 : Nat) ≠ 2 ∧ (0 : ℚ) < 30 ∧ get_account_balance sW 1 = some 100 ∧
      get_account_balance sW 2 = some 50 ∧ (30 : ℚ) ≤ 100) ∧
    ((transfer_money sW 1 2 30 "Transfer").1 =
        .ok (true, "Transfer completed successfully.") ∧
      get_account_balance (transfer_money sW 1 2 30 "Transfer").2 1 = some (100 - 30) ∧
      get_account_balance (transfer_money sW 1 2 30 "Transfer").2 2 = some (50 + 30) ∧
      ((100 : ℚ) - 30) + (50 + 30) = 100 + 50) :=
  ⟨⟨by decide, by decide, by with_unfolding_all decide, by with_unfolding_all decide,
      by decide⟩,
    transfer_money_conservation sW 1 2 30 "Transfer" 100 50 (by decide) (by decide)
      (by with_unfolding_all decide) (by with_unfolding_all decide) (by decide)⟩

/-- C2: Atomicity of failed transfers: whenever a transfer fails at a validation
step — same account, non-positive amount, a missing account, or insufficient
source funds — the resulting state equals the initial state: no accounts row and
no transactions row is written. -/
theorem transfer_money_failed_atomicity (s : DBState) (X Y : Nat) (A : ℚ) (d : String)
    (h : X = Y ∨ A ≤ 0 ∨ get_account_balance s X = none ∨
      get_account_balance s Y = none ∨
      (∃ B, get_account_balance s X = some B ∧ B < A)) :
    (transfer_money s X Y A d).2 = s := by
  unfold transfer_money
  by_cases h1 : X = Y
  · rw [if_pos h1]
  · rw [if_neg h1]
    by_cases h2 : A ≤ 0
    · rw [if_pos h2]
    · rw [if_neg h2]
      by_cases h3 : check_sufficient_balance s X A = false
      · rw [if_pos h3]
      · rw [if_neg h3]
        split
        · next fb tb hf ht =>
          by_cases h4 : fb < A
          · rw [if_pos h4]
          · exfalso
            rcases h with h | h | h | h | ⟨B, hB, hlt⟩
            · exact h1 h
            · exact h2 h
            · have hf' := hf
              rw [show getBal s.accounts X = get_account_balance s X from rfl, h] at hf'
              cases hf'
            · have ht' := ht
              rw [show getBal s.accounts Y = get_account_balance s Y from rfl, h] at ht'
              cases ht'
            · have hB' : getBal s.accounts X = some B := hB
              rw [hf] at hB'
              injection hB' with he
              subst he
              exact h4 hlt
        · rfl

/-- C2 witness: a same-account transfer on the concrete state leaves the state
untouched. -/
theorem transfer_money_failed_atomicity_witness :
    ((1 : Nat) = 1 ∨ (10 : ℚ) ≤ 0 ∨ get_account_balance sW 1 = none ∨
      get_account_balance sW 1 = none ∨
      (∃ B, get_account_balance sW 1 = some B ∧ B < 10)) ∧
    (transfer_money sW 1 1 10 "Transfer").2 = sW :=
  ⟨Or.inl rfl, transfer_money_failed_atomicity sW 1 1 10 "Transfer" (Or.inl rfl)⟩

/-- C3: Ledger reconciliation: the invariant "for every account, the sum of the
signed amounts of its transactions in creation order starting from zero equals
its current balance, and the most recent transaction's balance_after equals that
balance" is preserved by create_transaction, transfer_money and approve_loan. -/
theorem ledger_reconciliation_preserved (s : DBState) (account_id : Nat)
    (tx_type : String) (amount : ℚ) (rel : Option Nat) (d : String)
    (fa ta : Nat) (tAmt : ℚ) (td : String) (lid eid today : Nat)
    (h : LedgerInvariant s) :
    LedgerInvariant (create_transaction s account_id tx_type amount rel d).2 ∧
    LedgerInvariant (transfer_money s fa ta tAmt td).2 ∧
    LedgerInvariant (approve_loan s lid eid today) :=
  ⟨create_transaction_preserves_inv s account_id tx_type amount rel d h,
   transfer_money_preserves_inv s fa ta tAmt td h,
   approve_loan_preserves_inv s lid eid today h⟩

/-- C3 witness: the concrete state satisfies the invariant, and it is preserved
by a concrete posting, a concrete transfer and a concrete (no-op) approval. -/
theorem ledger_reconciliation_preserved_witness :
    LedgerInvariant sW ∧
    (LedgerInvariant (create_transaction sW 1 "DEBIT" 30 none "w").2 ∧
      LedgerInvariant (transfer_money sW 1 2 30 "w").2 ∧
      LedgerInvariant (approve_loan sW 5 9 0)) :=
  ⟨by with_unfolding_all decide,
    ledger_reconciliation_preserved sW 1 "DEBIT" 30 none "w" 1 2 30 "w" 5 9 0
      (by with_unfolding_all decide)⟩

/-- C7 counterexample: on the concrete state, account 1 exists with balance 100
but account 7 does not; the transfer of 50 from 1 to 7 is an expected business
failure (missing destination account), yet `transfer_money` raises
`ValueError("One or both accounts not found.")` instead of returning
`(False, reason)`. -/
theorem transfer_money_missing_destination_raises_cex :
    (transfer_money sW 1 7 50 "Transfer").1 = .exn "One or both accounts not found." := by
  with_unfolding_all decide

/-- C7 amended: the business failures same-account, non-positive amount, missing
SOURCE account, and insufficient funds are returned as `(False, reason)` with no
exception; a missing DESTINATION account, however, raises `ValueError`, which
propagates to the caller. -/
theorem transfer_money_business_failures_return_false (s : DBState) (X Y : Nat)
    (A : ℚ) (d : String)
    (h : X = Y ∨ A ≤ 0 ∨ get_account_balance s X = none ∨
      (∃ B, get_account_balance s X = some B ∧ B < A)) :
    ∃ m, (transfer_money s X Y A d).1 = .ok (false, m) := by
  unfold transfer_money
  by_cases h1 : X = Y
  · exact ⟨_, by rw [if_pos h1]⟩
  · by_cases h2 : A ≤ 0
    · exact ⟨_, by rw [if_neg h1, if_pos h2]⟩
    · have h3 : check_sufficient_balance s X A = false := by
        rcases h with h | h | h | ⟨B, hB, hlt⟩
        · exact absurd h h1
        · exact absurd h h2
        · unfold check_sufficient_balance
          rw [h]
        · unfold check_sufficient_balance
          rw [hB]
          exact decide_eq_false (not_le.mpr hlt)
      exact ⟨_, by rw [if_neg h1, if_neg h2, if_pos h3]⟩

/-- C7 amended witness: the missing-source case returns a false tuple rather
than raising. -/
theorem transfer_money_business_failures_return_false_witness :
    ((9 : Nat) = 2 ∨ (5 : ℚ) ≤ 0 ∨ get_account_balance sW 9 = none ∨
      (∃ B, get_account_balance sW 9 = some B ∧ B < 5)) ∧
    (∃ m, (transfer_money sW 9 2 5 "Transfer").1 = .ok (false, m)) :=
  ⟨Or.inr (Or.inr (Or.inl (by with_unfolding_all decide))),
    transfer_money_business_failures_return_false sW 9 2 5 "Transfer"
      (Or.inr (Or.inr (Or.inl (by with_unfolding_all decide))))⟩


end Ledger
